import Mathlib

/-!
Verification of the ephemeral hidden-service CLI
(`src/ephemeral_hidden_service/cli.py`).

The development has two parts:

* a model of the key-encoding pipeline of `encode_keys`: raw key bytes are
  base-32 encoded (RFC 4648 alphabet, as Python's `base64.b32encode` does,
  `=`-padded to a multiple of 8 characters) and the trailing `=` padding is
  then stripped (`.rstrip("=")`);

* a model of the control-session body of `start_ephemeral_service`: the
  daemon (the Tor controller reached through `stem`) is an abstract
  environment, interrupt (`KeyboardInterrupt`) delivery points are explicit
  inputs, and a run produces the ordered trace of control commands, printed
  lines and the connection-close event of the `with` block, together with
  the process exit status.

Bytes are modelled as natural numbers below 256.
-/

namespace EphemeralHiddenService

/-! ### Base-32 encoding (`base64.b32encode` followed by `.rstrip("=")`) -/

/-- The RFC 4648 base-32 alphabet used by Python's `b32encode`. -/
def b32alphabet : List Char :=
  ['A', 'B', 'C', 'D', 'E', 'F', 'G', 'H', 'I', 'J', 'K', 'L', 'M',
   'N', 'O', 'P', 'Q', 'R', 'S', 'T', 'U', 'V', 'W', 'X', 'Y', 'Z',
   '2', '3', '4', '5', '6', '7']

/-- Character for a 5-bit group value. -/
def b32charOf (d : Nat) : Char := b32alphabet.getD d 'A'

/-- Value of an alphabet character (decoder side). -/
def b32charVal (c : Char) : Nat := b32alphabet.indexOf c

/-- A byte string read as a big-endian natural number. -/
def bytesToNat (bs : List Nat) : Nat := bs.foldl (fun a b => 256 * a + b) 0

/-- The `k` base-`base` digits of `n`, most significant first. -/
def natToDigits (base : Nat) : Nat → Nat → List Nat
  | 0, _ => []
  | k + 1, n => natToDigits base k (n / base) ++ [n % base]

/-- A digit string read back as a natural number, most significant first. -/
def digitsVal (base : Nat) (ds : List Nat) : Nat :=
  ds.foldl (fun a d => base * a + d) 0

/-- Number of base-32 characters carrying data for `n` input bytes:
`⌈8n/5⌉`. -/
def nChars (n : Nat) : Nat := (8 * n + 4) / 5

/-- Number of `=` characters padding `c` data characters to a multiple
of 8. -/
def padCount (c : Nat) : Nat := (8 - c % 8) % 8

/-- The data characters of `b32encode`: the input bits, zero-padded on the
right to a multiple of 5, in 5-bit groups mapped through the alphabet. -/
def b32encodeRaw (bs : List Nat) : List Char :=
  (natToDigits 32 (nChars bs.length)
    (bytesToNat bs * 2 ^ (5 * nChars bs.length - 8 * bs.length))).map b32charOf

/-- Python's `b32encode`: data characters followed by `=` padding. -/
def b32encodePadded (bs : List Nat) : List Char :=
  b32encodeRaw bs ++ List.replicate (padCount (nChars bs.length)) '='

/-- `.rstrip("=")`: drop trailing `=` characters. -/
def stripPad (cs : List Char) : List Char :=
  (cs.reverse.dropWhile (· == '=')).reverse

/-- One component of `encode_keys`: `b32encode(keybytes).decode().rstrip("=")`. -/
def encodeKeyBytes (bs : List Nat) : String :=
  String.mk (stripPad (b32encodePadded bs))

/-- `encode_keys`: encode the raw private key bytes and the raw public key
bytes. Returns `(encoded_private_key, encoded_public_key)`. -/
def encode_keys (privBytes pubBytes : List Nat) : String × String :=
  (encodeKeyBytes privBytes, encodeKeyBytes pubBytes)

/-- Deterministic restoration of the stripped padding from the encoded
text's length. -/
def b32padRestore (cs : List Char) : List Char :=
  cs ++ List.replicate ((8 - cs.length % 8) % 8) '='

/-- Base-32 decoding: strip `=` padding, read the 5-bit groups as one big
number, discard the zero bits beyond the last whole byte, and split into
bytes. -/
def b32decode (cs : List Char) : List Nat :=
  let body := cs.takeWhile (· != '=')
  let c := body.length
  let n := 5 * c / 8
  natToDigits 256 n (digitsVal 32 (body.map b32charVal) / 2 ^ (5 * c - 8 * n))

/-! ### Arithmetic facts about digits -/

theorem digitsVal_append_singleton (base : Nat) (ds : List Nat) (d : Nat) :
    digitsVal base (ds ++ [d]) = base * digitsVal base ds + d := by
  simp [digitsVal, List.foldl_append]

theorem length_natToDigits (base k n : Nat) :
    (natToDigits base k n).length = k := by
  induction k generalizing n with
  | zero => rfl
  | succ k ih => simp [natToDigits, ih]

theorem natToDigits_lt (base k n : Nat) (hb : 0 < base) :
    ∀ d ∈ natToDigits base k n, d < base := by
  induction k generalizing n with
  | zero => simp [natToDigits]
  | succ k ih =>
    intro d hd
    simp only [natToDigits, List.mem_append, List.mem_singleton] at hd
    rcases hd with hd | hd
    · exact ih (n / base) d hd
    · subst hd; exact Nat.mod_lt _ hb

theorem digitsVal_natToDigits (base k n : Nat) :
    digitsVal base (natToDigits base k n) = n % base ^ k := by
  induction k generalizing n with
  | zero => simp [natToDigits, digitsVal, Nat.mod_one]
  | succ k ih =>
    rw [natToDigits, digitsVal_append_singleton, ih, pow_succ', Nat.mod_mul]
    ring

theorem bytesToNat_append_singleton (bs : List Nat) (b : Nat) :
    bytesToNat (bs ++ [b]) = 256 * bytesToNat bs + b := by
  simp [bytesToNat, List.foldl_append]

theorem bytesToNat_lt (bs : List Nat) (h : ∀ b ∈ bs, b < 256) :
    bytesToNat bs < 256 ^ bs.length := by
  induction bs using List.reverseRecOn with
  | nil => simp [bytesToNat]
  | append_singleton bs b ih =>
    rw [bytesToNat_append_singleton]
    have hb : b < 256 := h b (by simp)
    have hbs : bytesToNat bs < 256 ^ bs.length := ih fun x hx => h x (by simp [hx])
    calc 256 * bytesToNat bs + b < 256 * bytesToNat bs + 256 := by omega
    _ = 256 * (bytesToNat bs + 1) := by ring
    _ ≤ 256 * 256 ^ bs.length := by
        exact Nat.mul_le_mul_left 256 (by omega)
    _ = 256 ^ (bs ++ [b]).length := by
        simp [pow_succ]; ring

theorem natToDigits_bytesToNat (bs : List Nat) (h : ∀ b ∈ bs, b < 256) :
    natToDigits 256 bs.length (bytesToNat bs) = bs := by
  induction bs using List.reverseRecOn with
  | nil => simp [natToDigits, bytesToNat]
  | append_singleton bs b ih =>
    have hb : b < 256 := h b (by simp)
    have hrec := ih fun x hx => h x (by simp [hx])
    rw [bytesToNat_append_singleton]
    simp only [List.length_append, List.length_singleton]
    rw [natToDigits]
    have hdiv : (256 * bytesToNat bs + b) / 256 = bytesToNat bs := by omega
    have hmod : (256 * bytesToNat bs + b) % 256 = b := by omega
    rw [hdiv, hmod, hrec]

/-! ### The alphabet never produces `=` -/

theorem b32charOf_ne_pad (d : Nat) : b32charOf d ≠ '=' := by
  unfold b32charOf
  rw [List.getD_eq_getElem?_getD]
  cases hc : b32alphabet[d]? with
  | none => simp
  | some c =>
    have hmem : c ∈ b32alphabet := List.getElem?_mem hc
    have : '=' ∉ b32alphabet := by decide
    simp only [Option.getD_some]
    intro hEq
    exact this (hEq ▸ hmem)

theorem pad_not_mem_b32encodeRaw (bs : List Nat) : '=' ∉ b32encodeRaw bs := by
  unfold b32encodeRaw
  intro hmem
  rcases List.mem_map.mp hmem with ⟨d, _, hd⟩
  exact b32charOf_ne_pad d hd

/-! ### `rstrip("=")` on the padded encoding recovers the data characters -/

theorem dropWhile_pad_replicate_append (k : Nat) (l : List Char) :
    List.dropWhile (· == '=') (List.replicate k '=' ++ l) =
      List.dropWhile (· == '=') l := by
  induction k with
  | zero => rfl
  | succ k ih => simp [List.replicate_succ, List.dropWhile_cons, ih]

theorem dropWhile_pad_of_not_mem (l : List Char) (h : '=' ∉ l) :
    List.dropWhile (· == '=') l = l := by
  cases l with
  | nil => rfl
  | cons c t =>
    have hc : c ≠ '=' := fun hEq => h (hEq ▸ List.mem_cons_self c t)
    simp [List.dropWhile_cons, hc]

theorem stripPad_append_replicate (l : List Char) (k : Nat) (h : '=' ∉ l) :
    stripPad (l ++ List.replicate k '=') = l := by
  unfold stripPad
  rw [List.reverse_append, List.reverse_replicate, dropWhile_pad_replicate_append,
    dropWhile_pad_of_not_mem l.reverse (by simpa using h), List.reverse_reverse]

theorem stripPad_b32encodePadded (bs : List Nat) :
    stripPad (b32encodePadded bs) = b32encodeRaw bs :=
  stripPad_append_replicate _ _ (pad_not_mem_b32encodeRaw bs)

theorem takeWhile_nonpad_append_replicate (l : List Char) (k : Nat)
    (h : '=' ∉ l) :
    List.takeWhile (· != '=') (l ++ List.replicate k '=') = l := by
  induction l with
  | nil =>
    cases k with
    | zero => rfl
    | succ k => simp [List.replicate_succ, List.takeWhile_cons]
  | cons c t ih =>
    have hc : c ≠ '=' := fun hEq => h (hEq ▸ List.mem_cons_self c t)
    have ht : '=' ∉ t := fun hm => h (List.mem_cons_of_mem c hm)
    simp [List.takeWhile_cons, hc, ih ht]

/-! ### Round trip: restore padding from the length, decode, recover bytes -/

theorem length_b32encodeRaw (bs : List Nat) :
    (b32encodeRaw bs).length = nChars bs.length := by
  unfold b32encodeRaw
  rw [List.length_map, length_natToDigits]

theorem map_b32charVal_b32charOf (ds : List Nat) (h : ∀ d ∈ ds, d < 32) :
    (ds.map b32charOf).map b32charVal = ds := by
  induction ds with
  | nil => rfl
  | cons d t ih =>
    have hd : d < 32 := h d (List.mem_cons_self d t)
    have hval : b32charVal (b32charOf d) = d := by interval_cases d <;> rfl
    simp only [List.map_cons, hval, List.cons.injEq, true_and]
    exact ih fun x hx => h x (List.mem_cons_of_mem d hx)

theorem b32_roundtrip (bs : List Nat) (h : ∀ b ∈ bs, b < 256) :
    b32decode (b32padRestore (stripPad (b32encodePadded bs))) = bs := by
  rw [stripPad_b32encodePadded]
  unfold b32padRestore b32decode
  rw [takeWhile_nonpad_append_replicate _ _ (pad_not_mem_b32encodeRaw bs)]
  dsimp only
  rw [length_b32encodeRaw]
  set n := bs.length with hn
  set c := nChars n with hc
  have hc5 : c = (8 * n + 4) / 5 := hc
  have h8n5c : 8 * n ≤ 5 * c := by omega
  have hrecover : 5 * c / 8 = n := by omega
  rw [hrecover]
  unfold b32encodeRaw
  rw [← hn, ← hc, map_b32charVal_b32charOf _ (natToDigits_lt 32 c _ (by norm_num)),
    digitsVal_natToDigits]
  have hNbound : bytesToNat bs < 2 ^ (8 * n) := by
    have := bytesToNat_lt bs h
    rwa [← hn, show (256 : ℕ) = 2 ^ 8 by norm_num, ← pow_mul] at this
  have hlt : bytesToNat bs * 2 ^ (5 * c - 8 * n) < 32 ^ c := by
    have h32 : (32 : ℕ) ^ c = 2 ^ (8 * n) * 2 ^ (5 * c - 8 * n) := by
      rw [show (32 : ℕ) = 2 ^ 5 by norm_num, ← pow_mul, ← pow_add]
      congr 1
      omega
    rw [h32]
    exact mul_lt_mul_of_pos_right hNbound (Nat.pos_of_ne_zero (by positivity))
  rw [Nat.mod_eq_of_lt hlt, Nat.mul_div_cancel _ (Nat.pos_of_ne_zero (by positivity))]
  exact natToDigits_bytesToNat bs h

/-! ### The control session of `start_ephemeral_service`

The daemon behind the `stem` controller is abstracted by the replies it
gives, and each `KeyboardInterrupt` delivery point the interpreter can
observe between two statements of the session body is an explicit input.
A run starts after `Controller.from_port()` has succeeded (transition
`Init → Authenticating` of the spec; a connect failure acquires nothing)
and records the ordered trace of control commands, printed lines and the
single connection close performed by the `with` block, plus the process
exit status. -/

/-- The keyword arguments the session passes to
`create_ephemeral_hidden_service`: `{"ports": {hidden_service_port:
local_port}, "await_publication": True} | auth_config`. -/
structure ServiceRequest where
  ports : List (Nat × Nat)
  await_publication : Bool
  client_auth_v3 : Option String
deriving DecidableEq

/-- The daemon's observable behaviour: whether `authenticate` succeeds, the
`service_id` of the `AddOnionResponse` (`""` models a falsy/missing
identifier), and the contents of `list_ephemeral_hidden_services()` after
the create and after the remove command. -/
structure Daemon where
  authOk : Bool
  serviceId : String
  listAfterCreate : List String
  listAfterRemove : List String
deriving DecidableEq

/-- Where the first `KeyboardInterrupt` (if any) is raised: during
`controller.authenticate`, during `create_ephemeral_hidden_service`, during
the post-create `list_ephemeral_hidden_services` check, during the
`sleep` loop (the only point where the source catches it), or never. -/
inductive IPt where
  | atAuth
  | atCreate
  | atConfirm
  | atWait
  | never
deriving DecidableEq

/-- Where a second `KeyboardInterrupt` is raised during teardown (it is
outside any `try`, so it propagates): during the except-handler's print
before `remove_ephemeral_hidden_service` is reached, during the remove
call, or during the post-remove list check. -/
inductive TPt where
  | atExceptPrint
  | atRemove
  | atRemoveConfirm
deriving DecidableEq

/-- Observable events of a session run, in order. -/
inductive Event where
  | authenticate (password : Option String)
  | createService (req : ServiceRequest)
  | listServices
  | removeService (sid : String)
  | printLine (line : String)
  | closeConn
deriving DecidableEq

/-- Process exit: status 0, a non-zero status (uncaught exception), or no
exit at all (the `while True: sleep(1000)` loop never interrupted). -/
inductive ExitStatus where
  | ok
  | error
  | diverges
deriving DecidableEq

/-- Result of a run: the event trace and the exit status. -/
structure Outcome where
  events : List Event
  exit : ExitStatus
deriving DecidableEq

/-- Construction of the create request (cli.py lines 86-100): a single
port mapping, `await_publication = True`, and `client_auth_v3` only when
`--public` was not given. -/
def buildRequest (public : Bool) (hiddenServicePort localPort : Nat)
    (encodedPublicKey : String) : ServiceRequest :=
  { ports := [(hiddenServicePort, localPort)],
    await_publication := true,
    client_auth_v3 := if public then none else some encodedPublicKey }

/-- The line printed at cli.py lines 109-112. -/
def addressLine (localPort : Nat) (serviceId : String)
    (hiddenServicePort : Nat) : String :=
  "localhost:" ++ toString localPort ++ " is exposed at "
    ++ serviceId ++ ".onion:" ++ toString hiddenServicePort

/-- The line printed at cli.py line 115. -/
def authKeyLine (encodedPrivateKey : String) : String :=
  "Client authentication key: " ++ encodedPrivateKey

/-- The create request the session sends (cli.py lines 86-103): in
non-public mode its client-auth key is the `EncodedKeyPair.publicKeyText`
of this session's key pair. -/
def reqOf (public : Bool) (hiddenServicePort localPort : Nat)
    (privBytes pubBytes : List Nat) : ServiceRequest :=
  buildRequest public hiddenServicePort localPort
    (encode_keys privBytes pubBytes).2

/-- Trace prefix common to every path that passes the `assert
response.service_id` at line 106: the authenticate and create commands and
the status prints of lines 108-115. The private-key credential line is
printed only in non-public mode. -/
def preTrace (d : Daemon) (localPort hiddenServicePort : Nat)
    (public : Bool) (password : Option String)
    (privBytes pubBytes : List Nat) : List Event :=
  [Event.authenticate password,
   Event.createService (reqOf public hiddenServicePort localPort
     privBytes pubBytes),
   Event.printLine "Ephemeral hidden service created",
   Event.printLine (addressLine localPort d.serviceId hiddenServicePort)]
  ++ (if public then []
      else [Event.printLine (authKeyLine (encode_keys privBytes pubBytes).1)])

/-- Trace prefix common to every path that reaches the `except
KeyboardInterrupt` handler: `preTrace`, the confirmation list query of
line 117, and the prints at lines 119 and 125. -/
def waitTrace (d : Daemon) (localPort hiddenServicePort : Nat)
    (public : Bool) (password : Option String)
    (privBytes pubBytes : List Nat) : List Event :=
  preTrace d localPort hiddenServicePort public password privBytes pubBytes
  ++ [Event.listServices,
      Event.printLine "Press Ctrl+C to interrupt...",
      Event.printLine "Ctrl+C pressed. Exiting..."]

/-- The body of `start_ephemeral_service` (cli.py lines 83-129), one branch
per control-flow path. Every uncaught exception (interrupt outside the
`try`, `stem` authentication failure, failed `assert`) unwinds through the
`with` block, which closes the connection, and ends the process with a
non-zero status. -/
def run (d : Daemon) (itp : IPt) (tpt : Option TPt)
    (localPort hiddenServicePort : Nat) (public : Bool)
    (password : Option String) (privBytes pubBytes : List Nat) : Outcome :=
  if itp = IPt.atAuth then
    { events := [Event.authenticate password, Event.closeConn],
      exit := ExitStatus.error }
  else if !d.authOk then
    { events := [Event.authenticate password, Event.closeConn],
      exit := ExitStatus.error }
  else if itp = IPt.atCreate then
    { events := [Event.authenticate password,
        Event.createService (reqOf public hiddenServicePort localPort
          privBytes pubBytes),
        Event.closeConn],
      exit := ExitStatus.error }
  else if d.serviceId = "" then
    { events := [Event.authenticate password,
        Event.createService (reqOf public hiddenServicePort localPort
          privBytes pubBytes),
        Event.closeConn],
      exit := ExitStatus.error }
  else if itp = IPt.atConfirm then
    { events := preTrace d localPort hiddenServicePort public password
        privBytes pubBytes ++ [Event.listServices, Event.closeConn],
      exit := ExitStatus.error }
  else if d.serviceId ∉ d.listAfterCreate then
    { events := preTrace d localPort hiddenServicePort public password
        privBytes pubBytes ++ [Event.listServices, Event.closeConn],
      exit := ExitStatus.error }
  else if itp = IPt.never then
    { events := preTrace d localPort hiddenServicePort public password
        privBytes pubBytes ++ [Event.listServices,
        Event.printLine "Press Ctrl+C to interrupt..."],
      exit := ExitStatus.diverges }
  else if tpt = some TPt.atExceptPrint then
    { events := waitTrace d localPort hiddenServicePort public password
        privBytes pubBytes ++ [Event.closeConn],
      exit := ExitStatus.error }
  else if tpt = some TPt.atRemove then
    { events := waitTrace d localPort hiddenServicePort public password
        privBytes pubBytes ++ [Event.removeService d.serviceId,
        Event.closeConn],
      exit := ExitStatus.error }
  else if tpt = some TPt.atRemoveConfirm then
    { events := waitTrace d localPort hiddenServicePort public password
        privBytes pubBytes ++ [Event.removeService d.serviceId,
        Event.listServices, Event.closeConn],
      exit := ExitStatus.error }
  else if d.serviceId ∈ d.listAfterRemove then
    { events := waitTrace d localPort hiddenServicePort public password
        privBytes pubBytes ++ [Event.removeService d.serviceId,
        Event.listServices, Event.closeConn],
      exit := ExitStatus.error }
  else
    { events := waitTrace d localPort hiddenServicePort public password
        privBytes pubBytes ++ [Event.removeService d.serviceId,
        Event.listServices, Event.closeConn,
        Event.printLine "Service terminated"],
      exit := ExitStatus.ok }

/-- Event classifiers and command counts over a trace. -/
def isAuthEvent : Event → Bool
  | Event.authenticate _ => true
  | Event.createService _ => false
  | Event.listServices => false
  | Event.removeService _ => false
  | Event.printLine _ => false
  | Event.closeConn => false

def isCreateEvent : Event → Bool
  | Event.authenticate _ => false
  | Event.createService _ => true
  | Event.listServices => false
  | Event.removeService _ => false
  | Event.printLine _ => false
  | Event.closeConn => false

def isRemoveEvent : Event → Bool
  | Event.authenticate _ => false
  | Event.createService _ => false
  | Event.listServices => false
  | Event.removeService _ => true
  | Event.printLine _ => false
  | Event.closeConn => false

def isCloseEvent : Event → Bool
  | Event.authenticate _ => false
  | Event.createService _ => false
  | Event.listServices => false
  | Event.removeService _ => false
  | Event.printLine _ => false
  | Event.closeConn => true

def authCount (o : Outcome) : Nat := o.events.countP isAuthEvent

def createCount (o : Outcome) : Nat := o.events.countP isCreateEvent

def removeCount (o : Outcome) : Nat := o.events.countP isRemoveEvent

def closeCount (o : Outcome) : Nat := o.events.countP isCloseEvent

/-! ### Counting lemmas for the shared trace prefixes -/

theorem preTrace_counts (d : Daemon) (lp hsp : Nat) (public : Bool)
    (pw : Option String) (kb1 kb2 : List Nat) :
    (preTrace d lp hsp public pw kb1 kb2).countP isCloseEvent = 0 ∧
    (preTrace d lp hsp public pw kb1 kb2).countP isRemoveEvent = 0 ∧
    (preTrace d lp hsp public pw kb1 kb2).countP isAuthEvent = 1 ∧
    (preTrace d lp hsp public pw kb1 kb2).countP isCreateEvent = 1 := by
  unfold preTrace
  cases public <;>
    simp [List.countP_append, List.countP_cons, isCloseEvent, isRemoveEvent,
      isAuthEvent, isCreateEvent]

theorem waitTrace_counts (d : Daemon) (lp hsp : Nat) (public : Bool)
    (pw : Option String) (kb1 kb2 : List Nat) :
    (waitTrace d lp hsp public pw kb1 kb2).countP isCloseEvent = 0 ∧
    (waitTrace d lp hsp public pw kb1 kb2).countP isRemoveEvent = 0 ∧
    (waitTrace d lp hsp public pw kb1 kb2).countP isAuthEvent = 1 ∧
    (waitTrace d lp hsp public pw kb1 kb2).countP isCreateEvent = 1 := by
  have h := preTrace_counts d lp hsp public pw kb1 kb2
  unfold waitTrace
  simp [List.countP_append, List.countP_cons, isCloseEvent, isRemoveEvent,
    isAuthEvent, isCreateEvent, h.1, h.2.1, h.2.2.1, h.2.2.2]

/-! ### One equation per control-flow branch of `run` -/

theorem run_eq_authAbort (d : Daemon) (itp : IPt) (tpt : Option TPt)
    (lp hsp : Nat) (public : Bool) (pw : Option String) (kb1 kb2 : List Nat)
    (h1 : itp = IPt.atAuth) :
    run d itp tpt lp hsp public pw kb1 kb2 =
      ⟨[Event.authenticate pw, Event.closeConn], ExitStatus.error⟩ := by
  unfold run
  rw [if_pos h1]

theorem run_eq_authFail (d : Daemon) (itp : IPt) (tpt : Option TPt)
    (lp hsp : Nat) (public : Bool) (pw : Option String) (kb1 kb2 : List Nat)
    (h1 : itp ≠ IPt.atAuth) (h2 : d.authOk = false) :
    run d itp tpt lp hsp public pw kb1 kb2 =
      ⟨[Event.authenticate pw, Event.closeConn], ExitStatus.error⟩ := by
  unfold run
  rw [if_neg h1, if_pos (by simp [h2])]

theorem run_eq_createAbort (d : Daemon) (itp : IPt) (tpt : Option TPt)
    (lp hsp : Nat) (public : Bool) (pw : Option String) (kb1 kb2 : List Nat)
    (h1 : itp ≠ IPt.atAuth) (h2 : d.authOk = true) (h3 : itp = IPt.atCreate) :
    run d itp tpt lp hsp public pw kb1 kb2 =
      ⟨[Event.authenticate pw,
        Event.createService (reqOf public hsp lp kb1 kb2), Event.closeConn],
        ExitStatus.error⟩ := by
  unfold run
  rw [if_neg h1, if_neg (by simp [h2]), if_pos h3]

theorem run_eq_missingId (d : Daemon) (itp : IPt) (tpt : Option TPt)
    (lp hsp : Nat) (public : Bool) (pw : Option String) (kb1 kb2 : List Nat)
    (h1 : itp ≠ IPt.atAuth) (h2 : d.authOk = true) (h3 : itp ≠ IPt.atCreate)
    (h4 : d.serviceId = "") :
    run d itp tpt lp hsp public pw kb1 kb2 =
      ⟨[Event.authenticate pw,
        Event.createService (reqOf public hsp lp kb1 kb2), Event.closeConn],
        ExitStatus.error⟩ := by
  unfold run
  rw [if_neg h1, if_neg (by simp [h2]), if_neg h3, if_pos h4]

theorem run_eq_confirmAbort (d : Daemon) (itp : IPt) (tpt : Option TPt)
    (lp hsp : Nat) (public : Bool) (pw : Option String) (kb1 kb2 : List Nat)
    (h1 : itp ≠ IPt.atAuth) (h2 : d.authOk = true) (h3 : itp ≠ IPt.atCreate)
    (h4 : d.serviceId ≠ "") (h5 : itp = IPt.atConfirm) :
    run d itp tpt lp hsp public pw kb1 kb2 =
      ⟨preTrace d lp hsp public pw kb1 kb2 ++
        [Event.listServices, Event.closeConn], ExitStatus.error⟩ := by
  unfold run
  rw [if_neg h1, if_neg (by simp [h2]), if_neg h3, if_neg h4, if_pos h5]

theorem run_eq_absent (d : Daemon) (itp : IPt) (tpt : Option TPt)
    (lp hsp : Nat) (public : Bool) (pw : Option String) (kb1 kb2 : List Nat)
    (h1 : itp ≠ IPt.atAuth) (h2 : d.authOk = true) (h3 : itp ≠ IPt.atCreate)
    (h4 : d.serviceId ≠ "") (h5 : itp ≠ IPt.atConfirm)
    (h6 : d.serviceId ∉ d.listAfterCreate) :
    run d itp tpt lp hsp public pw kb1 kb2 =
      ⟨preTrace d lp hsp public pw kb1 kb2 ++
        [Event.listServices, Event.closeConn], ExitStatus.error⟩ := by
  unfold run
  rw [if_neg h1, if_neg (by simp [h2]), if_neg h3, if_neg h4, if_neg h5,
    if_pos h6]

theorem run_eq_diverge (d : Daemon) (itp : IPt) (tpt : Option TPt)
    (lp hsp : Nat) (public : Bool) (pw : Option String) (kb1 kb2 : List Nat)
    (h1 : itp ≠ IPt.atAuth) (h2 : d.authOk = true) (h3 : itp ≠ IPt.atCreate)
    (h4 : d.serviceId ≠ "") (h5 : itp ≠ IPt.atConfirm)
    (h6 : d.serviceId ∈ d.listAfterCreate) (h7 : itp = IPt.never) :
    run d itp tpt lp hsp public pw kb1 kb2 =
      ⟨preTrace d lp hsp public pw kb1 kb2 ++
        [Event.listServices, Event.printLine "Press Ctrl+C to interrupt..."],
        ExitStatus.diverges⟩ := by
  unfold run
  rw [if_neg h1, if_neg (by simp [h2]), if_neg h3, if_neg h4, if_neg h5,
    if_neg (not_not_intro h6), if_pos h7]

theorem run_eq_waitPrint (d : Daemon) (tpt : Option TPt)
    (lp hsp : Nat) (public : Bool) (pw : Option String) (kb1 kb2 : List Nat)
    (h2 : d.authOk = true) (h4 : d.serviceId ≠ "")
    (h6 : d.serviceId ∈ d.listAfterCreate)
    (htp : tpt = some TPt.atExceptPrint) :
    run d IPt.atWait tpt lp hsp public pw kb1 kb2 =
      ⟨waitTrace d lp hsp public pw kb1 kb2 ++ [Event.closeConn],
        ExitStatus.error⟩ := by
  unfold run
  rw [if_neg (by decide), if_neg (by simp [h2]), if_neg (by decide),
    if_neg h4, if_neg (by decide), if_neg (not_not_intro h6),
    if_neg (by decide), if_pos htp]

theorem run_eq_waitRemove (d : Daemon) (tpt : Option TPt)
    (lp hsp : Nat) (public : Bool) (pw : Option String) (kb1 kb2 : List Nat)
    (h2 : d.authOk = true) (h4 : d.serviceId ≠ "")
    (h6 : d.serviceId ∈ d.listAfterCreate)
    (htp : tpt = some TPt.atRemove) :
    run d IPt.atWait tpt lp hsp public pw kb1 kb2 =
      ⟨waitTrace d lp hsp public pw kb1 kb2 ++
        [Event.removeService d.serviceId, Event.closeConn],
        ExitStatus.error⟩ := by
  unfold run
  rw [if_neg (by decide), if_neg (by simp [h2]), if_neg (by decide),
    if_neg h4, if_neg (by decide), if_neg (not_not_intro h6),
    if_neg (by decide), if_neg (by simp [htp]), if_pos htp]

theorem run_eq_waitRemoveConfirm (d : Daemon) (tpt : Option TPt)
    (lp hsp : Nat) (public : Bool) (pw : Option String) (kb1 kb2 : List Nat)
    (h2 : d.authOk = true) (h4 : d.serviceId ≠ "")
    (h6 : d.serviceId ∈ d.listAfterCreate)
    (htp : tpt = some TPt.atRemoveConfirm) :
    run d IPt.atWait tpt lp hsp public pw kb1 kb2 =
      ⟨waitTrace d lp hsp public pw kb1 kb2 ++
        [Event.removeService d.serviceId, Event.listServices,
          Event.closeConn],
        ExitStatus.error⟩ := by
  unfold run
  rw [if_neg (by decide), if_neg (by simp [h2]), if_neg (by decide),
    if_neg h4, if_neg (by decide), if_neg (not_not_intro h6),
    if_neg (by decide), if_neg (by simp [htp]), if_neg (by simp [htp]),
    if_pos htp]

theorem run_eq_present (d : Daemon) (tpt : Option TPt)
    (lp hsp : Nat) (public : Bool) (pw : Option String) (kb1 kb2 : List Nat)
    (h2 : d.authOk = true) (h4 : d.serviceId ≠ "")
    (h6 : d.serviceId ∈ d.listAfterCreate) (htp : tpt = none)
    (h8 : d.serviceId ∈ d.listAfterRemove) :
    run d IPt.atWait tpt lp hsp public pw kb1 kb2 =
      ⟨waitTrace d lp hsp public pw kb1 kb2 ++
        [Event.removeService d.serviceId, Event.listServices,
          Event.closeConn],
        ExitStatus.error⟩ := by
  unfold run
  rw [if_neg (by decide), if_neg (by simp [h2]), if_neg (by decide),
    if_neg h4, if_neg (by decide), if_neg (not_not_intro h6),
    if_neg (by decide), if_neg (by simp [htp]), if_neg (by simp [htp]),
    if_neg (by simp [htp]), if_pos h8]

theorem run_eq_clean (d : Daemon) (tpt : Option TPt)
    (lp hsp : Nat) (public : Bool) (pw : Option String) (kb1 kb2 : List Nat)
    (h2 : d.authOk = true) (h4 : d.serviceId ≠ "")
    (h6 : d.serviceId ∈ d.listAfterCreate) (htp : tpt = none)
    (h8 : d.serviceId ∉ d.listAfterRemove) :
    run d IPt.atWait tpt lp hsp public pw kb1 kb2 =
      ⟨waitTrace d lp hsp public pw kb1 kb2 ++
        [Event.removeService d.serviceId, Event.listServices,
          Event.closeConn, Event.printLine "Service terminated"],
        ExitStatus.ok⟩ := by
  unfold run
  rw [if_neg (by decide), if_neg (by simp [h2]), if_neg (by decide),
    if_neg h4, if_neg (by decide), if_neg (not_not_intro h6),
    if_neg (by decide), if_neg (by simp [htp]), if_neg (by simp [htp]),
    if_neg (by simp [htp]), if_neg h8]

theorem run_shapes (d : Daemon) (itp : IPt) (tpt : Option TPt)
    (lp hsp : Nat) (public : Bool) (pw : Option String) (kb1 kb2 : List Nat) :
    run d itp tpt lp hsp public pw kb1 kb2 =
        ⟨[Event.authenticate pw, Event.closeConn], ExitStatus.error⟩ ∨
      run d itp tpt lp hsp public pw kb1 kb2 =
        ⟨[Event.authenticate pw,
          Event.createService (reqOf public hsp lp kb1 kb2),
          Event.closeConn], ExitStatus.error⟩ ∨
      run d itp tpt lp hsp public pw kb1 kb2 =
        ⟨preTrace d lp hsp public pw kb1 kb2 ++
          [Event.listServices, Event.closeConn], ExitStatus.error⟩ ∨
      run d itp tpt lp hsp public pw kb1 kb2 =
        ⟨preTrace d lp hsp public pw kb1 kb2 ++
          [Event.listServices,
            Event.printLine "Press Ctrl+C to interrupt..."],
          ExitStatus.diverges⟩ ∨
      run d itp tpt lp hsp public pw kb1 kb2 =
        ⟨waitTrace d lp hsp public pw kb1 kb2 ++ [Event.closeConn],
          ExitStatus.error⟩ ∨
      run d itp tpt lp hsp public pw kb1 kb2 =
        ⟨waitTrace d lp hsp public pw kb1 kb2 ++
          [Event.removeService d.serviceId, Event.closeConn],
          ExitStatus.error⟩ ∨
      run d itp tpt lp hsp public pw kb1 kb2 =
        ⟨waitTrace d lp hsp public pw kb1 kb2 ++
          [Event.removeService d.serviceId, Event.listServices,
            Event.closeConn], ExitStatus.error⟩ ∨
      run d itp tpt lp hsp public pw kb1 kb2 =
        ⟨waitTrace d lp hsp public pw kb1 kb2 ++
          [Event.removeService d.serviceId, Event.listServices,
            Event.closeConn, Event.printLine "Service terminated"],
          ExitStatus.ok⟩ := by
  by_cases h1 : itp = IPt.atAuth
  · exact Or.inl (run_eq_authAbort d itp tpt lp hsp public pw kb1 kb2 h1)
  cases hauth : d.authOk with
  | false =>
    exact Or.inl (run_eq_authFail d itp tpt lp hsp public pw kb1 kb2 h1 hauth)
  | true =>
    by_cases h3 : itp = IPt.atCreate
    · exact Or.inr (Or.inl
        (run_eq_createAbort d itp tpt lp hsp public pw kb1 kb2 h1 hauth h3))
    by_cases h4 : d.serviceId = ""
    · exact Or.inr (Or.inl
        (run_eq_missingId d itp tpt lp hsp public pw kb1 kb2 h1 hauth h3 h4))
    by_cases h5 : itp = IPt.atConfirm
    · exact Or.inr (Or.inr (Or.inl
        (run_eq_confirmAbort d itp tpt lp hsp public pw kb1 kb2 h1 hauth h3
          h4 h5)))
    by_cases h6 : d.serviceId ∈ d.listAfterCreate
    case neg =>
      exact Or.inr (Or.inr (Or.inl
        (run_eq_absent d itp tpt lp hsp public pw kb1 kb2 h1 hauth h3 h4 h5
          h6)))
    by_cases h7 : itp = IPt.never
    · exact Or.inr (Or.inr (Or.inr (Or.inl
        (run_eq_diverge d itp tpt lp hsp public pw kb1 kb2 h1 hauth h3 h4 h5
          h6 h7))))
    have hitp : itp = IPt.atWait := by cases itp <;> simp_all
    subst hitp
    cases tpt with
    | some tp =>
      cases tp with
      | atExceptPrint =>
        exact Or.inr (Or.inr (Or.inr (Or.inr (Or.inl
          (run_eq_waitPrint d _ lp hsp public pw kb1 kb2 hauth h4 h6 rfl)))))
      | atRemove =>
        exact Or.inr (Or.inr (Or.inr (Or.inr (Or.inr (Or.inl
          (run_eq_waitRemove d _ lp hsp public pw kb1 kb2 hauth h4 h6
            rfl))))))
      | atRemoveConfirm =>
        exact Or.inr (Or.inr (Or.inr (Or.inr (Or.inr (Or.inr (Or.inl
          (run_eq_waitRemoveConfirm d _ lp hsp public pw kb1 kb2 hauth h4 h6
            rfl)))))))
    | none =>
      by_cases h8 : d.serviceId ∈ d.listAfterRemove
      · exact Or.inr (Or.inr (Or.inr (Or.inr (Or.inr (Or.inr (Or.inl
          (run_eq_present d _ lp hsp public pw kb1 kb2 hauth h4 h6 rfl
            h8)))))))
      · exact Or.inr (Or.inr (Or.inr (Or.inr (Or.inr (Or.inr (Or.inr
          (run_eq_clean d _ lp hsp public pw kb1 kb2 hauth h4 h6 rfl
            h8)))))))

/-- Exhaustive case split over the control-flow branches of `run`, each
disjunct carrying the branch's conditions together with the outcome. -/
theorem run_cases_full (d : Daemon) (itp : IPt) (tpt : Option TPt)
    (lp hsp : Nat) (public : Bool) (pw : Option String) (kb1 kb2 : List Nat) :
    (itp = IPt.atAuth ∧ run d itp tpt lp hsp public pw kb1 kb2 =
      ⟨[Event.authenticate pw, Event.closeConn], ExitStatus.error⟩) ∨
    (itp ≠ IPt.atAuth ∧ d.authOk = false ∧
      run d itp tpt lp hsp public pw kb1 kb2 =
        ⟨[Event.authenticate pw, Event.closeConn], ExitStatus.error⟩) ∨
    (itp = IPt.atCreate ∧ d.authOk = true ∧
      run d itp tpt lp hsp public pw kb1 kb2 =
        ⟨[Event.authenticate pw,
          Event.createService (reqOf public hsp lp kb1 kb2),
          Event.closeConn], ExitStatus.error⟩) ∨
    (itp ≠ IPt.atAuth ∧ itp ≠ IPt.atCreate ∧ d.authOk = true ∧
      d.serviceId = "" ∧
      run d itp tpt lp hsp public pw kb1 kb2 =
        ⟨[Event.authenticate pw,
          Event.createService (reqOf public hsp lp kb1 kb2),
          Event.closeConn], ExitStatus.error⟩) ∨
    (itp = IPt.atConfirm ∧ d.authOk = true ∧ d.serviceId ≠ "" ∧
      run d itp tpt lp hsp public pw kb1 kb2 =
        ⟨preTrace d lp hsp public pw kb1 kb2 ++
          [Event.listServices, Event.closeConn], ExitStatus.error⟩) ∨
    (d.authOk = true ∧ d.serviceId ≠ "" ∧
      d.serviceId ∉ d.listAfterCreate ∧
      run d itp tpt lp hsp public pw kb1 kb2 =
        ⟨preTrace d lp hsp public pw kb1 kb2 ++
          [Event.listServices, Event.closeConn], ExitStatus.error⟩) ∨
    (itp = IPt.never ∧ d.authOk = true ∧ d.serviceId ≠ "" ∧
      d.serviceId ∈ d.listAfterCreate ∧
      run d itp tpt lp hsp public pw kb1 kb2 =
        ⟨preTrace d lp hsp public pw kb1 kb2 ++
          [Event.listServices,
            Event.printLine "Press Ctrl+C to interrupt..."],
          ExitStatus.diverges⟩) ∨
    (itp = IPt.atWait ∧ d.authOk = true ∧ d.serviceId ≠ "" ∧
      d.serviceId ∈ d.listAfterCreate ∧ tpt = some TPt.atExceptPrint ∧
      run d itp tpt lp hsp public pw kb1 kb2 =
        ⟨waitTrace d lp hsp public pw kb1 kb2 ++ [Event.closeConn],
          ExitStatus.error⟩) ∨
    (itp = IPt.atWait ∧ d.authOk = true ∧ d.serviceId ≠ "" ∧
      d.serviceId ∈ d.listAfterCreate ∧ tpt = some TPt.atRemove ∧
      run d itp tpt lp hsp public pw kb1 kb2 =
        ⟨waitTrace d lp hsp public pw kb1 kb2 ++
          [Event.removeService d.serviceId, Event.closeConn],
          ExitStatus.error⟩) ∨
    (itp = IPt.atWait ∧ d.authOk = true ∧ d.serviceId ≠ "" ∧
      d.serviceId ∈ d.listAfterCreate ∧ tpt = some TPt.atRemoveConfirm ∧
      run d itp tpt lp hsp public pw kb1 kb2 =
        ⟨waitTrace d lp hsp public pw kb1 kb2 ++
          [Event.removeService d.serviceId, Event.listServices,
            Event.closeConn], ExitStatus.error⟩) ∨
    (itp = IPt.atWait ∧ d.authOk = true ∧ d.serviceId ≠ "" ∧
      d.serviceId ∈ d.listAfterCreate ∧ tpt = none ∧
      d.serviceId ∈ d.listAfterRemove ∧
      run d itp tpt lp hsp public pw kb1 kb2 =
        ⟨waitTrace d lp hsp public pw kb1 kb2 ++
          [Event.removeService d.serviceId, Event.listServices,
            Event.closeConn], ExitStatus.error⟩) ∨
    (itp = IPt.atWait ∧ d.authOk = true ∧ d.serviceId ≠ "" ∧
      d.serviceId ∈ d.listAfterCreate ∧ tpt = none ∧
      d.serviceId ∉ d.listAfterRemove ∧
      run d itp tpt lp hsp public pw kb1 kb2 =
        ⟨waitTrace d lp hsp public pw kb1 kb2 ++
          [Event.removeService d.serviceId, Event.listServices,
            Event.closeConn, Event.printLine "Service terminated"],
          ExitStatus.ok⟩) := by
  by_cases h1 : itp = IPt.atAuth
  · exact Or.inl ⟨h1, run_eq_authAbort d itp tpt lp hsp public pw kb1 kb2 h1⟩
  cases hauth : d.authOk with
  | false =>
    exact Or.inr (Or.inl ⟨h1, rfl,
      run_eq_authFail d itp tpt lp hsp public pw kb1 kb2 h1 hauth⟩)
  | true =>
    by_cases h3 : itp = IPt.atCreate
    · exact Or.inr (Or.inr (Or.inl ⟨h3, rfl,
        run_eq_createAbort d itp tpt lp hsp public pw kb1 kb2 h1 hauth h3⟩))
    by_cases h4 : d.serviceId = ""
    · exact Or.inr (Or.inr (Or.inr (Or.inl ⟨h1, h3, rfl, h4,
        run_eq_missingId d itp tpt lp hsp public pw kb1 kb2 h1 hauth h3 h4⟩)))
    by_cases h5 : itp = IPt.atConfirm
    · exact Or.inr (Or.inr (Or.inr (Or.inr (Or.inl ⟨h5, rfl, h4,
        run_eq_confirmAbort d itp tpt lp hsp public pw kb1 kb2 h1 hauth h3
          h4 h5⟩))))
    by_cases h6 : d.serviceId ∈ d.listAfterCreate
    case neg =>
      exact Or.inr (Or.inr (Or.inr (Or.inr (Or.inr (Or.inl ⟨rfl, h4, h6,
        run_eq_absent d itp tpt lp hsp public pw kb1 kb2 h1 hauth h3 h4 h5
          h6⟩)))))
    by_cases h7 : itp = IPt.never
    · exact Or.inr (Or.inr (Or.inr (Or.inr (Or.inr (Or.inr (Or.inl
        ⟨h7, rfl, h4, h6,
          run_eq_diverge d itp tpt lp hsp public pw kb1 kb2 h1 hauth h3 h4
            h5 h6 h7⟩))))))
    have hitp : itp = IPt.atWait := by cases itp <;> simp_all
    subst hitp
    cases tpt with
    | some tp =>
      cases tp with
      | atExceptPrint =>
        exact Or.inr (Or.inr (Or.inr (Or.inr (Or.inr (Or.inr (Or.inr
          (Or.inl ⟨rfl, rfl, h4, h6, rfl,
            run_eq_waitPrint d _ lp hsp public pw kb1 kb2 hauth h4 h6
              rfl⟩)))))))
      | atRemove =>
        exact Or.inr (Or.inr (Or.inr (Or.inr (Or.inr (Or.inr (Or.inr
          (Or.inr (Or.inl ⟨rfl, rfl, h4, h6, rfl,
            run_eq_waitRemove d _ lp hsp public pw kb1 kb2 hauth h4 h6
              rfl⟩))))))))
      | atRemoveConfirm =>
        exact Or.inr (Or.inr (Or.inr (Or.inr (Or.inr (Or.inr (Or.inr
          (Or.inr (Or.inr (Or.inl ⟨rfl, rfl, h4, h6, rfl,
            run_eq_waitRemoveConfirm d _ lp hsp public pw kb1 kb2 hauth h4
              h6 rfl⟩)))))))))
    | none =>
      by_cases h8 : d.serviceId ∈ d.listAfterRemove
      · exact Or.inr (Or.inr (Or.inr (Or.inr (Or.inr (Or.inr (Or.inr
          (Or.inr (Or.inr (Or.inr (Or.inl ⟨rfl, rfl, h4, h6, rfl, h8,
            run_eq_present d _ lp hsp public pw kb1 kb2 hauth h4 h6 rfl
              h8⟩))))))))))
      · exact Or.inr (Or.inr (Or.inr (Or.inr (Or.inr (Or.inr (Or.inr
          (Or.inr (Or.inr (Or.inr (Or.inr ⟨rfl, rfl, h4, h6, rfl, h8,
            run_eq_clean d _ lp hsp public pw kb1 kb2 hauth h4 h6 rfl
              h8⟩))))))))))

/-! ### Membership helpers for the create command -/

theorem createService_mem_preTrace (d : Daemon) (lp hsp : Nat)
    (public : Bool) (pw : Option String) (kb1 kb2 : List Nat)
    (r : ServiceRequest)
    (h : Event.createService r ∈ preTrace d lp hsp public pw kb1 kb2) :
    r = reqOf public hsp lp kb1 kb2 := by
  unfold preTrace at h
  cases public <;> simp at h <;> exact h

theorem createService_mem_waitTrace (d : Daemon) (lp hsp : Nat)
    (public : Bool) (pw : Option String) (kb1 kb2 : List Nat)
    (r : ServiceRequest)
    (h : Event.createService r ∈ waitTrace d lp hsp public pw kb1 kb2) :
    r = reqOf public hsp lp kb1 kb2 := by
  unfold waitTrace at h
  rw [List.mem_append] at h
  rcases h with h | h
  · exact createService_mem_preTrace d lp hsp public pw kb1 kb2 r h
  · simp at h

theorem createService_mem_run (d : Daemon) (itp : IPt) (tpt : Option TPt)
    (lp hsp : Nat) (public : Bool) (pw : Option String) (kb1 kb2 : List Nat)
    (r : ServiceRequest)
    (hr : Event.createService r ∈
      (run d itp tpt lp hsp public pw kb1 kb2).events) :
    r = reqOf public hsp lp kb1 kb2 := by
  rcases run_shapes d itp tpt lp hsp public pw kb1 kb2 with
    h | h | h | h | h | h | h | h <;>
    rw [h] at hr <;> rw [show (⟨_, _⟩ : Outcome).events = _ from rfl] at hr
  · simp at hr
  · simp at hr
    exact hr
  · rcases List.mem_append.mp hr with hr | hr
    · exact createService_mem_preTrace d lp hsp public pw kb1 kb2 r hr
    · simp at hr
  · rcases List.mem_append.mp hr with hr | hr
    · exact createService_mem_preTrace d lp hsp public pw kb1 kb2 r hr
    · simp at hr
  · rcases List.mem_append.mp hr with hr | hr
    · exact createService_mem_waitTrace d lp hsp public pw kb1 kb2 r hr
    · simp at hr
  · rcases List.mem_append.mp hr with hr | hr
    · exact createService_mem_waitTrace d lp hsp public pw kb1 kb2 r hr
    · simp at hr
  · rcases List.mem_append.mp hr with hr | hr
    · exact createService_mem_waitTrace d lp hsp public pw kb1 kb2 r hr
    · simp at hr
  · rcases List.mem_append.mp hr with hr | hr
    · exact createService_mem_waitTrace d lp hsp public pw kb1 kb2 r hr
    · simp at hr

theorem createService_reqOf_mem_preTrace (d : Daemon) (lp hsp : Nat)
    (public : Bool) (pw : Option String) (kb1 kb2 : List Nat) :
    Event.createService (reqOf public hsp lp kb1 kb2) ∈
      preTrace d lp hsp public pw kb1 kb2 := by
  unfold preTrace
  cases public <;> simp

theorem createService_reqOf_mem_waitTrace (d : Daemon) (lp hsp : Nat)
    (public : Bool) (pw : Option String) (kb1 kb2 : List Nat) :
    Event.createService (reqOf public hsp lp kb1 kb2) ∈
      waitTrace d lp hsp public pw kb1 kb2 := by
  unfold waitTrace
  exact List.mem_append.mpr
    (Or.inl (createService_reqOf_mem_preTrace d lp hsp public pw kb1 kb2))

/-! ### The claims -/

/-- C1: for every session the constructed service-creation request has
`awaitPublication = true` and the single port mapping
`{hidden_service_port: local_port}`; in public mode it carries no
client-auth key field, otherwise exactly the session's
`EncodedKeyPair.publicKeyText`; and every create command a run sends
carries exactly this request. -/
theorem claim_C1 (d : Daemon) (itp : IPt) (tpt : Option TPt) (lp hsp : Nat)
    (public : Bool) (pw : Option String) (kb1 kb2 : List Nat) :
    (reqOf public hsp lp kb1 kb2).await_publication = true ∧
    (reqOf public hsp lp kb1 kb2).ports = [(hsp, lp)] ∧
    (public = true → (reqOf public hsp lp kb1 kb2).client_auth_v3 = none) ∧
    (public = false →
      (reqOf public hsp lp kb1 kb2).client_auth_v3 =
        some (encode_keys kb1 kb2).2) ∧
    (∀ r, Event.createService r ∈
        (run d itp tpt lp hsp public pw kb1 kb2).events →
      r = reqOf public hsp lp kb1 kb2) := by
  refine ⟨rfl, rfl, ?_, ?_, ?_⟩
  · intro h
    simp [reqOf, buildRequest, h]
  · intro h
    simp [reqOf, buildRequest, h]
  · intro r hr
    exact createService_mem_run d itp tpt lp hsp public pw kb1 kb2 r hr

/-- Witness for C1: non-public mode at a concrete session. -/
theorem claim_C1_witness :
    (reqOf false 80 8080 [1] [2]).await_publication = true ∧
    (reqOf false 80 8080 [1] [2]).client_auth_v3 =
      some (encode_keys [1] [2]).2 :=
  ⟨(claim_C1 ⟨true, "a", ["a"], []⟩ IPt.atWait none 8080 80 false none
      [1] [2]).1,
   (claim_C1 ⟨true, "a", ["a"], []⟩ IPt.atWait none 8080 80 false none
      [1] [2]).2.2.2.1 rfl⟩

/-- C2: an interrupt delivered in the wait state leads to the remove
command for the held identifier, then the confirming list query, then the
connection close, then exit status 0. -/
theorem claim_C2 (d : Daemon) (lp hsp : Nat) (public : Bool)
    (pw : Option String) (kb1 kb2 : List Nat)
    (hauth : d.authOk = true) (hsid : d.serviceId ≠ "")
    (hin : d.serviceId ∈ d.listAfterCreate)
    (hout : d.serviceId ∉ d.listAfterRemove) :
    run d IPt.atWait none lp hsp public pw kb1 kb2 =
      ⟨waitTrace d lp hsp public pw kb1 kb2 ++
        [Event.removeService d.serviceId, Event.listServices,
          Event.closeConn, Event.printLine "Service terminated"],
        ExitStatus.ok⟩ :=
  run_eq_clean d none lp hsp public pw kb1 kb2 hauth hsid hin rfl hout

/-- Witness for C2 at a concrete daemon. -/
theorem claim_C2_witness :
    run ⟨true, "svc", ["svc"], []⟩ IPt.atWait none 8080 80 true none [] [] =
      ⟨waitTrace ⟨true, "svc", ["svc"], []⟩ 8080 80 true none [] [] ++
        [Event.removeService "svc", Event.listServices, Event.closeConn,
          Event.printLine "Service terminated"],
        ExitStatus.ok⟩ :=
  claim_C2 ⟨true, "svc", ["svc"], []⟩ 8080 80 true none [] [] rfl
    (by decide) (by decide) (by decide)

/-- C5: on every exit path — clean teardown after interruption,
authentication failure, protocol error, or interruption — the control
connection is closed (exactly once) before the process exits; no
execution leaks the connection. -/
theorem claim_C5 (d : Daemon) (itp : IPt) (tpt : Option TPt) (lp hsp : Nat)
    (public : Bool) (pw : Option String) (kb1 kb2 : List Nat)
    (hterm : (run d itp tpt lp hsp public pw kb1 kb2).exit ≠
      ExitStatus.diverges) :
    closeCount (run d itp tpt lp hsp public pw kb1 kb2) = 1 := by
  have hpre := (preTrace_counts d lp hsp public pw kb1 kb2).1
  have hwait := (waitTrace_counts d lp hsp public pw kb1 kb2).1
  rcases run_shapes d itp tpt lp hsp public pw kb1 kb2 with
    h | h | h | h | h | h | h | h <;>
    rw [h] at hterm ⊢ <;>
    first
      | exact absurd rfl hterm
      | simp [closeCount, List.countP_append, List.countP_cons,
          List.countP_nil, isCloseEvent, hpre, hwait]

/-- Witness for C5 at a concrete daemon and interrupt schedule. -/
theorem claim_C5_witness :
    closeCount (run ⟨true, "abc", ["abc"], []⟩ IPt.atWait none 8080 80 true
      none [] []) = 1 :=
  claim_C5 ⟨true, "abc", ["abc"], []⟩ IPt.atWait none 8080 80 true none [] []
    (by decide)

/-- C3 counterexample: with an interrupt in the wait state followed by a
second interrupt during the except-handler's print, the remove command is
never issued — the teardown sequence is triggered zero times, not exactly
once, although the session had reached the wait state. -/
theorem claim_C3_counterexample :
    ¬ (removeCount (run ⟨true, "abc", ["abc"], []⟩ IPt.atWait
        (some TPt.atExceptPrint) 8080 80 true none [] []) = 1) := by
  decide

/-- C3 (amended): the removal logic is entered at most once and the
connection is closed at most once, whatever the interrupt schedule; a run
that exits with status 0 performed the teardown exactly once. (A second
interrupt during teardown cannot re-enter the removal logic or close the
connection twice, but it can abort the teardown, so "exactly once" holds
only for clean exits.) -/
theorem claim_C3 (d : Daemon) (itp : IPt) (tpt : Option TPt) (lp hsp : Nat)
    (public : Bool) (pw : Option String) (kb1 kb2 : List Nat) :
    removeCount (run d itp tpt lp hsp public pw kb1 kb2) ≤ 1 ∧
    closeCount (run d itp tpt lp hsp public pw kb1 kb2) ≤ 1 ∧
    ((run d itp tpt lp hsp public pw kb1 kb2).exit = ExitStatus.ok →
      removeCount (run d itp tpt lp hsp public pw kb1 kb2) = 1 ∧
      closeCount (run d itp tpt lp hsp public pw kb1 kb2) = 1) := by
  have hpre := preTrace_counts d lp hsp public pw kb1 kb2
  have hwait := waitTrace_counts d lp hsp public pw kb1 kb2
  rcases run_shapes d itp tpt lp hsp public pw kb1 kb2 with
    h | h | h | h | h | h | h | h <;>
    rw [h] <;>
    refine ⟨?_, ?_, ?_⟩ <;>
    simp [removeCount, closeCount, List.countP_append, List.countP_cons,
      List.countP_nil, isRemoveEvent, isCloseEvent, hpre.1, hpre.2.1,
      hwait.1, hwait.2.1]

/-- Witness for C3: a clean teardown performs removal and close exactly
once. -/
theorem claim_C3_witness :
    removeCount (run ⟨true, "abc", ["abc"], []⟩ IPt.atWait none 8080 80
      true none [] []) = 1 ∧
    closeCount (run ⟨true, "abc", ["abc"], []⟩ IPt.atWait none 8080 80
      true none [] []) = 1 :=
  (claim_C3 ⟨true, "abc", ["abc"], []⟩ IPt.atWait none 8080 80 true none
    [] []).2.2 (by decide)

/-- C4 counterexample: with a daemon whose post-create list omits the
returned identifier, the externally visible address line is still printed
(the prints at cli.py lines 108-115 precede the membership assert at line
117), so the line is not emitted only after the confirmation succeeds. -/
theorem claim_C4_counterexample :
    "abc" ∉ (⟨true, "abc", [], []⟩ : Daemon).listAfterCreate ∧
    Event.printLine (addressLine 8080 "abc" 80) ∈
      (run ⟨true, "abc", [], []⟩ IPt.atWait none 8080 80 true none
        [] []).events ∧
    (run ⟨true, "abc", [], []⟩ IPt.atWait none 8080 80 true none
      [] []).exit = ExitStatus.error := by
  decide

theorem addressLine_mem_preTrace (d : Daemon) (lp hsp : Nat)
    (public : Bool) (pw : Option String) (kb1 kb2 : List Nat) :
    Event.printLine (addressLine lp d.serviceId hsp) ∈
      preTrace d lp hsp public pw kb1 kb2 := by
  unfold preTrace
  cases public <;> simp

theorem authKeyLine_mem_preTrace (d : Daemon) (lp hsp : Nat)
    (public : Bool) (pw : Option String) (kb1 kb2 : List Nat)
    (h : public = false) :
    Event.printLine (authKeyLine (encode_keys kb1 kb2).1) ∈
      preTrace d lp hsp public pw kb1 kb2 := by
  subst h
  unfold preTrace
  simp

/-- C4 (amended): the address line and, in non-public mode, the
private-key credential line are emitted after the create reply produced a
non-empty identifier but before the post-create confirmation query:
whenever the address line appears in a trace, the trace begins with the
authenticate and create commands and the status prints (the credential
line included exactly when not public) and only then the list query. When
the identifier is absent from the post-create list the process exits with
a non-zero status and never issues the remove command, although on every
path that reached the confirmation query the address line (and, in
non-public mode, the private-key line) was already printed. -/
theorem claim_C4 (d : Daemon) (itp : IPt) (tpt : Option TPt) (lp hsp : Nat)
    (public : Bool) (pw : Option String) (kb1 kb2 : List Nat) :
    (Event.printLine (addressLine lp d.serviceId hsp) ∈
        (run d itp tpt lp hsp public pw kb1 kb2).events →
      d.serviceId ≠ "" ∧
      ∃ rest,
        (run d itp tpt lp hsp public pw kb1 kb2).events =
          [Event.authenticate pw,
           Event.createService (reqOf public hsp lp kb1 kb2),
           Event.printLine "Ephemeral hidden service created",
           Event.printLine (addressLine lp d.serviceId hsp)] ++
          (if public = true then []
           else [Event.printLine (authKeyLine (encode_keys kb1 kb2).1)]) ++
          Event.listServices :: rest) ∧
    (d.serviceId ∉ d.listAfterCreate →
      (run d itp tpt lp hsp public pw kb1 kb2).exit = ExitStatus.error ∧
      removeCount (run d itp tpt lp hsp public pw kb1 kb2) = 0 ∧
      (Event.listServices ∈
          (run d itp tpt lp hsp public pw kb1 kb2).events →
        Event.printLine (addressLine lp d.serviceId hsp) ∈
          (run d itp tpt lp hsp public pw kb1 kb2).events ∧
        (public = false →
          Event.printLine (authKeyLine (encode_keys kb1 kb2).1) ∈
            (run d itp tpt lp hsp public pw kb1 kb2).events))) := by
  have hpre := preTrace_counts d lp hsp public pw kb1 kb2
  constructor
  · intro haddr
    rcases run_cases_full d itp tpt lp hsp public pw kb1 kb2 with
      ⟨_, h⟩ | ⟨_, _, h⟩ | ⟨_, _, h⟩ | ⟨_, _, _, _, h⟩ | ⟨_, _, hsid, h⟩ |
      ⟨_, hsid, _, h⟩ | ⟨_, _, hsid, _, h⟩ | ⟨_, _, hsid, _, _, h⟩ |
      ⟨_, _, hsid, _, _, h⟩ | ⟨_, _, hsid, _, _, h⟩ |
      ⟨_, _, hsid, _, _, _, h⟩ | ⟨_, _, hsid, _, _, _, h⟩ <;>
      rw [h] at haddr ⊢
    · simp at haddr
    · simp at haddr
    · simp at haddr
    · simp at haddr
    · exact ⟨hsid, [Event.closeConn],
        by simp [preTrace, List.append_assoc]⟩
    · exact ⟨hsid, [Event.closeConn],
        by simp [preTrace, List.append_assoc]⟩
    · exact ⟨hsid, [Event.printLine "Press Ctrl+C to interrupt..."],
        by simp [preTrace, List.append_assoc]⟩
    · exact ⟨hsid, [Event.printLine "Press Ctrl+C to interrupt...",
        Event.printLine "Ctrl+C pressed. Exiting...", Event.closeConn],
        by simp [waitTrace, preTrace, List.append_assoc]⟩
    · exact ⟨hsid, [Event.printLine "Press Ctrl+C to interrupt...",
        Event.printLine "Ctrl+C pressed. Exiting...",
        Event.removeService d.serviceId, Event.closeConn],
        by simp [waitTrace, preTrace, List.append_assoc]⟩
    · exact ⟨hsid, [Event.printLine "Press Ctrl+C to interrupt...",
        Event.printLine "Ctrl+C pressed. Exiting...",
        Event.removeService d.serviceId, Event.listServices,
        Event.closeConn],
        by simp [waitTrace, preTrace, List.append_assoc]⟩
    · exact ⟨hsid, [Event.printLine "Press Ctrl+C to interrupt...",
        Event.printLine "Ctrl+C pressed. Exiting...",
        Event.removeService d.serviceId, Event.listServices,
        Event.closeConn],
        by simp [waitTrace, preTrace, List.append_assoc]⟩
    · exact ⟨hsid, [Event.printLine "Press Ctrl+C to interrupt...",
        Event.printLine "Ctrl+C pressed. Exiting...",
        Event.removeService d.serviceId, Event.listServices,
        Event.closeConn, Event.printLine "Service terminated"],
        by simp [waitTrace, preTrace, List.append_assoc]⟩
  · intro habs
    rcases run_cases_full d itp tpt lp hsp public pw kb1 kb2 with
      ⟨_, h⟩ | ⟨_, _, h⟩ | ⟨_, _, h⟩ | ⟨_, _, _, _, h⟩ | ⟨_, _, _, h⟩ |
      ⟨_, _, _, h⟩ | ⟨_, _, _, hmem, h⟩ | ⟨_, _, _, hmem, _, h⟩ |
      ⟨_, _, _, hmem, _, h⟩ | ⟨_, _, _, hmem, _, h⟩ |
      ⟨_, _, _, hmem, _, _, h⟩ | ⟨_, _, _, hmem, _, _, h⟩
    · rw [h]
      refine ⟨rfl, by simp [removeCount, List.countP_cons, List.countP_nil,
        isRemoveEvent], ?_⟩
      intro hls
      simp at hls
    · rw [h]
      refine ⟨rfl, by simp [removeCount, List.countP_cons, List.countP_nil,
        isRemoveEvent], ?_⟩
      intro hls
      simp at hls
    · rw [h]
      refine ⟨rfl, by simp [removeCount, List.countP_cons, List.countP_nil,
        isRemoveEvent], ?_⟩
      intro hls
      simp at hls
    · rw [h]
      refine ⟨rfl, by simp [removeCount, List.countP_cons, List.countP_nil,
        isRemoveEvent], ?_⟩
      intro hls
      simp at hls
    · rw [h]
      refine ⟨rfl, by simp [removeCount, List.countP_append,
        List.countP_cons, List.countP_nil, isRemoveEvent, hpre.2.1], ?_⟩
      intro hls
      exact ⟨List.mem_append.mpr (Or.inl
          (addressLine_mem_preTrace d lp hsp public pw kb1 kb2)),
        fun hpub => List.mem_append.mpr (Or.inl
          (authKeyLine_mem_preTrace d lp hsp public pw kb1 kb2 hpub))⟩
    · rw [h]
      refine ⟨rfl, by simp [removeCount, List.countP_append,
        List.countP_cons, List.countP_nil, isRemoveEvent, hpre.2.1], ?_⟩
      intro hls
      exact ⟨List.mem_append.mpr (Or.inl
          (addressLine_mem_preTrace d lp hsp public pw kb1 kb2)),
        fun hpub => List.mem_append.mpr (Or.inl
          (authKeyLine_mem_preTrace d lp hsp public pw kb1 kb2 hpub))⟩
    · exact absurd hmem habs
    · exact absurd hmem habs
    · exact absurd hmem habs
    · exact absurd hmem habs
    · exact absurd hmem habs
    · exact absurd hmem habs

/-- Witness for C4: a non-public run whose daemon omits the identifier
after create errors out without removal, the address and credential lines
standing before the confirmation query in the trace. -/
theorem claim_C4_witness :
    ("abc" ≠ "" ∧
      ∃ rest,
        (run ⟨true, "abc", [], []⟩ IPt.atWait none 8080 80 false none
          [1] [2]).events =
          [Event.authenticate none,
           Event.createService (reqOf false 80 8080 [1] [2]),
           Event.printLine "Ephemeral hidden service created",
           Event.printLine (addressLine 8080 "abc" 80)] ++
          (if false = true then []
           else [Event.printLine (authKeyLine (encode_keys [1] [2]).1)]) ++
          Event.listServices :: rest) ∧
    ((run ⟨true, "abc", [], []⟩ IPt.atWait none 8080 80 false none
        [1] [2]).exit = ExitStatus.error ∧
      removeCount (run ⟨true, "abc", [], []⟩ IPt.atWait none 8080 80
        false none [1] [2]) = 0 ∧
      (Event.listServices ∈ (run ⟨true, "abc", [], []⟩ IPt.atWait none
          8080 80 false none [1] [2]).events →
        Event.printLine (addressLine 8080 "abc" 80) ∈
          (run ⟨true, "abc", [], []⟩ IPt.atWait none 8080 80 false none
            [1] [2]).events ∧
        (false = false →
          Event.printLine (authKeyLine (encode_keys [1] [2]).1) ∈
            (run ⟨true, "abc", [], []⟩ IPt.atWait none 8080 80 false
              none [1] [2]).events))) :=
  ⟨(claim_C4 ⟨true, "abc", [], []⟩ IPt.atWait none 8080 80 false none
      [1] [2]).1 (by decide),
   (claim_C4 ⟨true, "abc", [], []⟩ IPt.atWait none 8080 80 false none
      [1] [2]).2 (by decide)⟩

/-- C6: each protocol inconsistency — missing identifier on create,
identifier absent after create-confirmation, identifier still present
after remove-confirmation — ends the run with a non-zero status, without
retrying any command (authenticate and create are issued exactly once and
remove at most once); in the absent-after-create case the remove command
is never issued. -/
theorem claim_C6 (d : Daemon) (tpt : Option TPt) (lp hsp : Nat)
    (public : Bool) (pw : Option String) (kb1 kb2 : List Nat) :
    (∀ itp, itp ≠ IPt.atAuth → itp ≠ IPt.atCreate → d.authOk = true →
      d.serviceId = "" →
      (run d itp tpt lp hsp public pw kb1 kb2).exit = ExitStatus.error ∧
      authCount (run d itp tpt lp hsp public pw kb1 kb2) = 1 ∧
      createCount (run d itp tpt lp hsp public pw kb1 kb2) = 1 ∧
      removeCount (run d itp tpt lp hsp public pw kb1 kb2) = 0) ∧
    (∀ itp, itp ≠ IPt.atAuth → itp ≠ IPt.atCreate → itp ≠ IPt.atConfirm →
      d.authOk = true → d.serviceId ≠ "" →
      d.serviceId ∉ d.listAfterCreate →
      (run d itp tpt lp hsp public pw kb1 kb2).exit = ExitStatus.error ∧
      authCount (run d itp tpt lp hsp public pw kb1 kb2) = 1 ∧
      createCount (run d itp tpt lp hsp public pw kb1 kb2) = 1 ∧
      removeCount (run d itp tpt lp hsp public pw kb1 kb2) = 0) ∧
    (d.authOk = true → d.serviceId ≠ "" →
      d.serviceId ∈ d.listAfterCreate → d.serviceId ∈ d.listAfterRemove →
      (run d IPt.atWait none lp hsp public pw kb1 kb2).exit =
        ExitStatus.error ∧
      authCount (run d IPt.atWait none lp hsp public pw kb1 kb2) = 1 ∧
      createCount (run d IPt.atWait none lp hsp public pw kb1 kb2) = 1 ∧
      removeCount (run d IPt.atWait none lp hsp public pw kb1 kb2) = 1) := by
  have hpre := preTrace_counts d lp hsp public pw kb1 kb2
  have hwait := waitTrace_counts d lp hsp public pw kb1 kb2
  refine ⟨?_, ?_, ?_⟩
  · intro itp h1 h3 hauth h4
    rw [run_eq_missingId d itp tpt lp hsp public pw kb1 kb2 h1 hauth h3 h4]
    refine ⟨rfl, ?_, ?_, ?_⟩ <;>
      simp [authCount, createCount, removeCount, List.countP_cons,
        List.countP_nil, isAuthEvent, isCreateEvent, isRemoveEvent]
  · intro itp h1 h3 h5 hauth h4 h6
    rw [run_eq_absent d itp tpt lp hsp public pw kb1 kb2 h1 hauth h3 h4 h5
      h6]
    refine ⟨rfl, ?_, ?_, ?_⟩ <;>
      simp [authCount, createCount, removeCount, List.countP_append,
        List.countP_cons, List.countP_nil, isAuthEvent, isCreateEvent,
        isRemoveEvent, hpre.2.1, hpre.2.2.1, hpre.2.2.2]
  · intro hauth h4 h6 h8
    rw [run_eq_present d none lp hsp public pw kb1 kb2 hauth h4 h6 rfl h8]
    refine ⟨rfl, ?_, ?_, ?_⟩ <;>
      simp [authCount, createCount, removeCount, List.countP_append,
        List.countP_cons, List.countP_nil, isAuthEvent, isCreateEvent,
        isRemoveEvent, hwait.2.1, hwait.2.2.1, hwait.2.2.2]

/-- Witness for C6: the absent-after-create inconsistency at a concrete
daemon errors out with no removal attempt. -/
theorem claim_C6_witness :
    (run ⟨true, "abc", [], []⟩ IPt.never none 8080 80 true none
      [] []).exit = ExitStatus.error ∧
    authCount (run ⟨true, "abc", [], []⟩ IPt.never none 8080 80 true none
      [] []) = 1 ∧
    createCount (run ⟨true, "abc", [], []⟩ IPt.never none 8080 80 true
      none [] []) = 1 ∧
    removeCount (run ⟨true, "abc", [], []⟩ IPt.never none 8080 80 true
      none [] []) = 0 :=
  (claim_C6 ⟨true, "abc", [], []⟩ none 8080 80 true none [] []).2.1
    IPt.never (by decide) (by decide) (by decide) rfl (by decide)
    (by decide)

/-- C7: a rejected authentication credential means a non-zero exit, no
create command ever sent, and the connection closed before exit. -/
theorem claim_C7 (d : Daemon) (itp : IPt) (tpt : Option TPt) (lp hsp : Nat)
    (public : Bool) (pw : Option String) (kb1 kb2 : List Nat)
    (hauth : d.authOk = false) :
    (run d itp tpt lp hsp public pw kb1 kb2).exit = ExitStatus.error ∧
    createCount (run d itp tpt lp hsp public pw kb1 kb2) = 0 ∧
    closeCount (run d itp tpt lp hsp public pw kb1 kb2) = 1 := by
  by_cases h1 : itp = IPt.atAuth
  · rw [run_eq_authAbort d itp tpt lp hsp public pw kb1 kb2 h1]
    refine ⟨rfl, ?_, ?_⟩ <;>
      simp [createCount, closeCount, List.countP_cons, List.countP_nil,
        isCreateEvent, isCloseEvent]
  · rw [run_eq_authFail d itp tpt lp hsp public pw kb1 kb2 h1 hauth]
    refine ⟨rfl, ?_, ?_⟩ <;>
      simp [createCount, closeCount, List.countP_cons, List.countP_nil,
        isCreateEvent, isCloseEvent]

/-- Witness for C7 at a concrete rejecting daemon. -/
theorem claim_C7_witness :
    (run ⟨false, "", [], []⟩ IPt.never none 8080 80 true none [] []).exit =
      ExitStatus.error ∧
    createCount (run ⟨false, "", [], []⟩ IPt.never none 8080 80 true none
      [] []) = 0 ∧
    closeCount (run ⟨false, "", [], []⟩ IPt.never none 8080 80 true none
      [] []) = 1 :=
  claim_C7 ⟨false, "", [], []⟩ IPt.never none 8080 80 true none [] [] rfl

/-- C10: an interrupt delivered before the wait state (during
authentication, the create command, or the confirmation check) is not
handled: no remove command is ever issued, the process exits with a
non-zero status, and the connection is still closed. -/
theorem claim_C10 (d : Daemon) (itp : IPt) (tpt : Option TPt) (lp hsp : Nat)
    (public : Bool) (pw : Option String) (kb1 kb2 : List Nat)
    (h : itp = IPt.atAuth ∨ itp = IPt.atCreate ∨ itp = IPt.atConfirm) :
    removeCount (run d itp tpt lp hsp public pw kb1 kb2) = 0 ∧
    (run d itp tpt lp hsp public pw kb1 kb2).exit = ExitStatus.error ∧
    closeCount (run d itp tpt lp hsp public pw kb1 kb2) = 1 := by
  have hpre := preTrace_counts d lp hsp public pw kb1 kb2
  rcases h with h | h | h <;> subst h
  · rw [run_eq_authAbort d IPt.atAuth tpt lp hsp public pw kb1 kb2 rfl]
    refine ⟨?_, rfl, ?_⟩ <;>
      simp [removeCount, closeCount, List.countP_cons, List.countP_nil,
        isRemoveEvent, isCloseEvent]
  · cases hauth : d.authOk with
    | false =>
      rw [run_eq_authFail d IPt.atCreate tpt lp hsp public pw kb1 kb2
        (by decide) hauth]
      refine ⟨?_, rfl, ?_⟩ <;>
        simp [removeCount, closeCount, List.countP_cons, List.countP_nil,
          isRemoveEvent, isCloseEvent]
    | true =>
      rw [run_eq_createAbort d IPt.atCreate tpt lp hsp public pw kb1 kb2
        (by decide) hauth rfl]
      refine ⟨?_, rfl, ?_⟩ <;>
        simp [removeCount, closeCount, List.countP_cons, List.countP_nil,
          isRemoveEvent, isCloseEvent]
  · cases hauth : d.authOk with
    | false =>
      rw [run_eq_authFail d IPt.atConfirm tpt lp hsp public pw kb1 kb2
        (by decide) hauth]
      refine ⟨?_, rfl, ?_⟩ <;>
        simp [removeCount, closeCount, List.countP_cons, List.countP_nil,
          isRemoveEvent, isCloseEvent]
    | true =>
      by_cases h4 : d.serviceId = ""
      · rw [run_eq_missingId d IPt.atConfirm tpt lp hsp public pw kb1 kb2
          (by decide) hauth (by decide) h4]
        refine ⟨?_, rfl, ?_⟩ <;>
          simp [removeCount, closeCount, List.countP_cons, List.countP_nil,
            isRemoveEvent, isCloseEvent]
      · rw [run_eq_confirmAbort d IPt.atConfirm tpt lp hsp public pw kb1
          kb2 (by decide) hauth (by decide) h4 rfl]
        refine ⟨?_, rfl, ?_⟩ <;>
          simp [removeCount, closeCount, List.countP_append,
            List.countP_cons, List.countP_nil, isRemoveEvent, isCloseEvent,
            hpre.1, hpre.2.1]

/-- Witness for C10: an interrupt during the confirmation check. -/
theorem claim_C10_witness :
    removeCount (run ⟨true, "abc", ["abc"], []⟩ IPt.atConfirm none 8080 80
      true none [] []) = 0 ∧
    (run ⟨true, "abc", ["abc"], []⟩ IPt.atConfirm none 8080 80 true none
      [] []).exit = ExitStatus.error ∧
    closeCount (run ⟨true, "abc", ["abc"], []⟩ IPt.atConfirm none 8080 80
      true none [] []) = 1 :=
  claim_C10 ⟨true, "abc", ["abc"], []⟩ IPt.atConfirm none 8080 80 true
    none [] [] (Or.inr (Or.inr rfl))

/-- C8: the key encoding is deterministic — equal raw bytes give equal
text — and neither encoded half ever contains the padding character
`=`. -/
theorem claim_C8 (kb1 kb2 kb3 kb4 : List Nat) :
    (kb1 = kb3 → kb2 = kb4 → encode_keys kb1 kb2 = encode_keys kb3 kb4) ∧
    '=' ∉ (encode_keys kb1 kb2).1.data ∧
    '=' ∉ (encode_keys kb1 kb2).2.data := by
  refine ⟨?_, ?_, ?_⟩
  · intro h1 h2
    rw [h1, h2]
  · show '=' ∉ stripPad (b32encodePadded kb1)
    rw [stripPad_b32encodePadded]
    exact pad_not_mem_b32encodeRaw kb1
  · show '=' ∉ stripPad (b32encodePadded kb2)
    rw [stripPad_b32encodePadded]
    exact pad_not_mem_b32encodeRaw kb2

/-- Witness for C8 at concrete key bytes. -/
theorem claim_C8_witness :
    encode_keys [7] [9] = encode_keys [7] [9] ∧
    '=' ∉ (encode_keys [7] [9]).1.data ∧
    '=' ∉ (encode_keys [7] [9]).2.data :=
  ⟨(claim_C8 [7] [9] [7] [9]).1 rfl rfl, (claim_C8 [7] [9] [7] [9]).2.1,
    (claim_C8 [7] [9] [7] [9]).2.2⟩

/-- C9: for every raw key byte string, restoring the stripped base-32
padding deterministically from the encoded text's length and then base-32
decoding yields back the original raw bytes. -/
theorem claim_C9 (kb1 kb2 : List Nat) (h1 : ∀ b ∈ kb1, b < 256)
    (h2 : ∀ b ∈ kb2, b < 256) :
    b32decode (b32padRestore (encode_keys kb1 kb2).1.data) = kb1 ∧
    b32decode (b32padRestore (encode_keys kb1 kb2).2.data) = kb2 :=
  ⟨b32_roundtrip kb1 h1, b32_roundtrip kb2 h2⟩

/-- Witness for C9 at concrete key bytes. -/
theorem claim_C9_witness :
    b32decode (b32padRestore (encode_keys [18, 255] [1, 2, 3]).1.data) =
      [18, 255] ∧
    b32decode (b32padRestore (encode_keys [18, 255] [1, 2, 3]).2.data) =
      [1, 2, 3] :=
  claim_C9 [18, 255] [1, 2, 3] (by decide) (by decide)

end EphemeralHiddenService
